import Mathlib

/-
Verification of the lead-management core of DSRainer/DERT_Leads2.

The definitions below are a shallow embedding of the TypeScript source:
LeadForm.tsx (amount calculation, form state, create/update submission),
the Dashboard component (fetching, filtering and ordering of leads), the
LeadsList component (delete and status change), and the SQL schema
(the lead_score CHECK constraint).  JavaScript strings are modelled as
Lean String, numbers as Int (integral columns) or Rat (decimal columns),
nullable text columns as String with "" standing for the absent value,
and each supabase round trip as a pure function from the table contents
to the new table contents together with an Except result.
-/

namespace DertLeads

/-- Lead classification, the values offered by the LeadForm select. -/
inductive LeadType
  | individual
  | business
  | housingSociety
  | agent
deriving DecidableEq

/-- Model classification, the values offered by the LeadForm select. -/
inductive ModelType
  | purchase
  | rent
  | individualHomeKit
deriving DecidableEq

/-- Lead status, the three values of the final schema and of the selects. -/
inductive LeadStatus
  | new
  | inProgress
  | closed
deriving DecidableEq

/-- The string value the LeadForm select carries for a lead type. -/
def LeadType.toStr : LeadType → String
  | LeadType.individual => "Individual"
  | LeadType.business => "Business"
  | LeadType.housingSociety => "Housing-Society"
  | LeadType.agent => "Agent"

/-- The string value the LeadForm select carries for a model type. -/
def ModelType.toStr : ModelType → String
  | ModelType.purchase => "Purchase"
  | ModelType.rent => "Rent"
  | ModelType.individualHomeKit => "Individual Home-kit"

/-- The string value the selects carry for a status. -/
def LeadStatus.toStr : LeadStatus → String
  | LeadStatus.new => "New"
  | LeadStatus.inProgress => "In-Progress"
  | LeadStatus.closed => "Closed"

/-- A row of the products table (the fields the form uses). -/
structure Product where
  id : String
  name : String
  description : String
  price : Rat
  is_active : Bool
deriving DecidableEq

/-- A row of the services table (the fields the form uses). -/
structure Service where
  id : String
  name : String
  description : String
  price : Rat
  is_active : Bool
deriving DecidableEq

/-- A row of the leads table, as the client reads and writes it.  Nullable
text columns are modelled as String with "" for null, matching the form
state where they default to the empty string. -/
structure Lead where
  id : String
  user_id : String
  full_name : String
  email : String
  phone : String
  company : String
  lead_type : LeadType
  model_type : ModelType
  lead_score : Int
  status : LeadStatus
  potential_amount : Rat
  notes : String
  address : String
  location_url : String
  pincode : Int
  follow_up : Bool
  follow_up_date : String
  follow_up_notes : String
  lead_sealed : Bool
deriving DecidableEq

/-- The formData state object of LeadForm (lines 21 to 39 of the source). -/
structure FormData where
  full_name : String
  email : String
  phone : String
  company : String
  lead_type : LeadType
  model_type : ModelType
  lead_score : Int
  status : LeadStatus
  potential_amount : Rat
  notes : String
  address : String
  location_url : String
  pincode : Int
  follow_up : Bool
  follow_up_date : String
  follow_up_notes : String
  lead_sealed : Bool
deriving DecidableEq

/-- The product part of calculatedAmount: selectedProducts.reduce over the
fetched products, adding the found price or 0 (the source writes
product?.price || 0, so a missing id contributes 0). -/
def productTotal (products : List Product) (selectedProducts : List String) : Rat :=
  selectedProducts.foldl
    (fun sum productId =>
      sum + (((products.find? fun p => decide (p.id = productId)).map Product.price).getD 0))
    0

/-- The service part of calculatedAmount, symmetric to productTotal. -/
def serviceTotal (services : List Service) (selectedServices : List String) : Rat :=
  selectedServices.foldl
    (fun sum serviceId =>
      sum + (((services.find? fun s => decide (s.id = serviceId)).map Service.price).getD 0))
    0

/-- The calculatedAmount memo of LeadForm: product total plus service
total over the current selections and catalog snapshot. -/
def calculatedAmount (products : List Product) (services : List Service)
    (selectedProducts selectedServices : List String) : Rat :=
  productTotal products selectedProducts + serviceTotal services selectedServices

/-- The price a selected product id resolves to in the snapshot: the price
of the first product with that id, and 0 when none resolves. -/
def productPrice (products : List Product) (productId : String) : Rat :=
  ((products.find? fun p => decide (p.id = productId)).map Product.price).getD 0

/-- The price a selected service id resolves to in the snapshot. -/
def servicePrice (services : List Service) (serviceId : String) : Rat :=
  ((services.find? fun s => decide (s.id = serviceId)).map Service.price).getD 0

/-- Errors an operation can surface to its caller.  notFound is the
single-row error PostgREST raises when .single() sees no row, a
validation failure is the CHECK constraint violation of the schema, and
repositoryError stands for any other storage failure the client rethrows. -/
inductive DbError
  | notFound
  | validationFailed
  | repositoryError
deriving DecidableEq

/-- The CHECK constraint of the leads table:
lead_score greater or equal 0 and less or equal 100. -/
def validLeadScore (score : Int) : Bool :=
  decide (0 ≤ score ∧ score ≤ 100)

/-- The row predicate of .eq(id, leadId).eq(user_id, userId), the pair of
filters every mutation of the client attaches. -/
def leadKeyMatch (leadId userId : String) (l : Lead) : Bool :=
  decide (l.id = leadId ∧ l.user_id = userId)

/-- Copies every formData field onto an existing row, keeping id and
user_id: the update spread of handleSubmit (lines 130 to 139); the
updated_at refresh is not modelled. -/
def applyFormData (l : Lead) (fd : FormData) : Lead :=
  { l with
    full_name := fd.full_name
    email := fd.email
    phone := fd.phone
    company := fd.company
    lead_type := fd.lead_type
    model_type := fd.model_type
    lead_score := fd.lead_score
    status := fd.status
    potential_amount := fd.potential_amount
    notes := fd.notes
    address := fd.address
    location_url := fd.location_url
    pincode := fd.pincode
    follow_up := fd.follow_up
    follow_up_date := fd.follow_up_date
    follow_up_notes := fd.follow_up_notes
    lead_sealed := fd.lead_sealed }

/-- The row the insert spread of handleSubmit builds for a new lead
(lines 145 to 152): formData plus the stamped user_id and the generated
id. -/
def leadOfForm (newId userId : String) (fd : FormData) : Lead :=
  { id := newId
    user_id := userId
    full_name := fd.full_name
    email := fd.email
    phone := fd.phone
    company := fd.company
    lead_type := fd.lead_type
    model_type := fd.model_type
    lead_score := fd.lead_score
    status := fd.status
    potential_amount := fd.potential_amount
    notes := fd.notes
    address := fd.address
    location_url := fd.location_url
    pincode := fd.pincode
    follow_up := fd.follow_up
    follow_up_date := fd.follow_up_date
    follow_up_notes := fd.follow_up_notes
    lead_sealed := fd.lead_sealed }

/-- The update branch of handleSubmit (lines 128 to 142): update the rows
matching id and user_id with the formData spread, then .select().single().
With no matching row nothing is written and .single() reports the
no-row error; a matching row with an out-of-range lead_score trips the
CHECK constraint; otherwise the rows are rewritten and .single() returns
the one updated row (erroring if the row count is not one).  updatedRows
is the table after the write. -/
def updatedRows (db : List Lead) (leadId userId : String) (fd : FormData) : List Lead :=
  db.map fun l => if leadKeyMatch leadId userId l then applyFormData l fd else l

/-- See updatedRows: the whole update round trip with its .single()
result. -/
def updateLead (db : List Lead) (leadId userId : String) (fd : FormData) :
    List Lead × Except DbError Lead :=
  if (db.filter (leadKeyMatch leadId userId)).isEmpty then
    (db, Except.error DbError.notFound)
  else if !validLeadScore fd.lead_score then
    (db, Except.error DbError.validationFailed)
  else
    match (updatedRows db leadId userId fd).filter (leadKeyMatch leadId userId) with
    | [l] => (updatedRows db leadId userId fd, Except.ok l)
    | _ => (updatedRows db leadId userId fd, Except.error DbError.notFound)

/-- The create branch of handleSubmit (lines 144 to 156): insert the
formData spread stamped with user_id; the CHECK constraint of the schema
rejects an out-of-range lead_score, otherwise the row is appended and
returned. -/
def createLead (db : List Lead) (newId userId : String) (fd : FormData) :
    List Lead × Except DbError Lead :=
  if !validLeadScore fd.lead_score then
    (db, Except.error DbError.validationFailed)
  else
    (db ++ [leadOfForm newId userId fd], Except.ok (leadOfForm newId userId fd))

/-- The handleDelete of LeadsList (lines 17 to 32): delete the rows
matching id and user_id.  A delete that matches no row is not an error,
so the result is ok regardless. -/
def handleDelete (db : List Lead) (leadId userId : String) :
    List Lead × Except DbError Unit :=
  (db.filter fun l => !leadKeyMatch leadId userId l, Except.ok ())

/-- The handleStatusChange of LeadsList (lines 34 to 49): a narrow update
writing only status on the rows matching id and user_id.  With no
.single() call, affecting zero rows is not an error. -/
def handleStatusChange (db : List Lead) (leadId userId : String)
    (newStatus : LeadStatus) : List Lead × Except DbError Unit :=
  (db.map fun l => if leadKeyMatch leadId userId l then { l with status := newStatus } else l,
   Except.ok ())

/-- The three tables the form touches: leads and the two association
tables. -/
structure LeadProduct where
  lead_id : String
  product_id : String
deriving DecidableEq

/-- A row of the lead_services junction table. -/
structure LeadService where
  lead_id : String
  service_id : String
deriving DecidableEq

/-- The storage state handleSubmit acts on. -/
structure Db where
  leads : List Lead
  lead_products : List LeadProduct
  lead_services : List LeadService
deriving DecidableEq

/-- The lead_products bulk insert of handleSubmit (lines 161 to 172),
performed only for a nonempty selection. -/
def insertLeadProducts (db : Db) (leadId : String) (selectedProducts : List String) : Db :=
  if selectedProducts.isEmpty then db
  else { db with lead_products := db.lead_products
          ++ selectedProducts.map fun pid => { lead_id := leadId, product_id := pid } }

/-- The lead_services bulk insert, symmetric to insertLeadProducts. -/
def insertLeadServices (db : Db) (leadId : String) (selectedServices : List String) : Db :=
  if selectedServices.isEmpty then db
  else { db with lead_services := db.lead_services
          ++ selectedServices.map fun sid => { lead_id := leadId, service_id := sid } }

/-- The whole handleSubmit flow (lines 120 to 195).  existing is the lead
prop of the form: some for an edit, none for a creation.  productInsertOk
and serviceInsertOk inject the success or failure of the two association
bulk inserts, which the source performs only for a new lead and only for
nonempty selections; a failed insert is rethrown, reaching the caller as
a repository error, and nothing already committed is rolled back. -/
def handleSubmit (db : Db) (userId : String) (existing : Option Lead)
    (fd : FormData) (selectedProducts selectedServices : List String)
    (newId : String) (productInsertOk serviceInsertOk : Bool) :
    Db × Except DbError Unit :=
  match existing with
  | some lead =>
    ({ db with leads := (updateLead db.leads lead.id userId fd).fst },
     (updateLead db.leads lead.id userId fd).snd.map fun _ => ())
  | none =>
    match createLead db.leads newId userId fd with
    | (leads2, Except.error e) => ({ db with leads := leads2 }, Except.error e)
    | (leads2, Except.ok newLead) =>
      if !selectedProducts.isEmpty && !productInsertOk then
        ({ db with leads := leads2 }, Except.error DbError.repositoryError)
      else if !selectedServices.isEmpty && !serviceInsertOk then
        (insertLeadProducts { db with leads := leads2 } newLead.id selectedProducts,
         Except.error DbError.repositoryError)
      else
        (insertLeadServices
          (insertLeadProducts { db with leads := leads2 } newLead.id selectedProducts)
          newLead.id selectedServices,
         Except.ok ())

/-- The handleProductToggle of LeadForm (lines 197 to 203): remove every
occurrence of the id when present, append it otherwise. -/
def handleProductToggle (prev : List String) (productId : String) : List String :=
  if productId ∈ prev then prev.filter fun id => decide (id ≠ productId)
  else prev ++ [productId]

/-- The handleServiceToggle of LeadForm (lines 205 to 211), identical in
shape to the product toggle. -/
def handleServiceToggle (prev : List String) (serviceId : String) : List String :=
  if serviceId ∈ prev then prev.filter fun id => decide (id ≠ serviceId)
  else prev ++ [serviceId]

/-- The initial formData object (lines 21 to 39): empty strings, zeros,
Individual, Purchase, status New, every flag false. -/
def initialFormData : FormData :=
  { full_name := ""
    email := ""
    phone := ""
    company := ""
    lead_type := LeadType.individual
    model_type := ModelType.purchase
    lead_score := 0
    status := LeadStatus.new
    potential_amount := 0
    notes := ""
    address := ""
    location_url := ""
    pincode := 0
    follow_up := false
    follow_up_date := ""
    follow_up_notes := ""
    lead_sealed := false }

/-- The setFormData call of the edit flow (lines 68 to 86): each field is
copied from the lead, the source defaulting nullable ones with an
or-empty that is the identity in this model. -/
def formDataOfLead (l : Lead) : FormData :=
  { full_name := l.full_name
    email := l.email
    phone := l.phone
    company := l.company
    lead_type := l.lead_type
    model_type := l.model_type
    lead_score := l.lead_score
    status := l.status
    potential_amount := l.potential_amount
    notes := l.notes
    address := l.address
    location_url := l.location_url
    pincode := l.pincode
    follow_up := l.follow_up
    follow_up_date := l.follow_up_date
    follow_up_notes := l.follow_up_notes
    lead_sealed := l.lead_sealed }

/-- The form state at mount: blank for a creation, copied from the lead
for an edit. -/
def initFormData : Option Lead → FormData
  | none => initialFormData
  | some l => formDataOfLead l

/-- One user interaction with the form, one constructor per onChange
handler of LeadForm. -/
inductive FormEvent
  | setFullName (s : String)
  | setEmail (s : String)
  | setPhone (s : String)
  | setCompany (s : String)
  | setLeadType (t : LeadType)
  | setModelType (t : ModelType)
  | setLeadScore (n : Int)
  | setStatus (st : LeadStatus)
  | setPotentialAmount (q : Rat)
  | setNotes (s : String)
  | setAddress (s : String)
  | setLocationUrl (s : String)
  | setPincode (n : Int)
  | setFollowUp (b : Bool)
  | setFollowUpDate (s : String)
  | setFollowUpNotes (s : String)
  | setLeadSealed (b : Bool)

/-- The effect of one interaction on formData.  The follow-up checkbox
(lines 545 to 550) clears follow_up_date and follow_up_notes whenever it
is set to false; the date and notes inputs (lines 558 to 584) are
rendered only while follow_up is true, so their setters fire only then,
which the guard translates. -/
def applyEvent (fd : FormData) : FormEvent → FormData
  | FormEvent.setFullName s => { fd with full_name := s }
  | FormEvent.setEmail s => { fd with email := s }
  | FormEvent.setPhone s => { fd with phone := s }
  | FormEvent.setCompany s => { fd with company := s }
  | FormEvent.setLeadType t => { fd with lead_type := t }
  | FormEvent.setModelType t => { fd with model_type := t }
  | FormEvent.setLeadScore n => { fd with lead_score := n }
  | FormEvent.setStatus st => { fd with status := st }
  | FormEvent.setPotentialAmount q => { fd with potential_amount := q }
  | FormEvent.setNotes s => { fd with notes := s }
  | FormEvent.setAddress s => { fd with address := s }
  | FormEvent.setLocationUrl s => { fd with location_url := s }
  | FormEvent.setPincode n => { fd with pincode := n }
  | FormEvent.setFollowUp b =>
      { fd with
        follow_up := b
        follow_up_date := if b then fd.follow_up_date else ""
        follow_up_notes := if b then fd.follow_up_notes else "" }
  | FormEvent.setFollowUpDate s =>
      if fd.follow_up then { fd with follow_up_date := s } else fd
  | FormEvent.setFollowUpNotes s =>
      if fd.follow_up then { fd with follow_up_notes := s } else fd
  | FormEvent.setLeadSealed b => { fd with lead_sealed := b }

/-- The form state after a sequence of interactions. -/
def applyEvents (fd : FormData) (events : List FormEvent) : FormData :=
  events.foldl applyEvent fd

/-- The follow-up coupling on form state: a cleared gate means cleared
date and notes. -/
def formFollowUpInv (fd : FormData) : Prop :=
  fd.follow_up = false → fd.follow_up_date = "" ∧ fd.follow_up_notes = ""

/-- The follow-up coupling on a stored row. -/
def leadFollowUpInv (l : Lead) : Prop :=
  l.follow_up = false → l.follow_up_date = "" ∧ l.follow_up_notes = ""

/-- The auto-update effect of LeadForm (lines 56 to 61): only when no
lead prop is present and the calculated amount is strictly positive is
potential_amount overwritten with it. -/
def autoUpdatePotentialAmount (leadOpt : Option Lead) (calculatedAmt : Rat)
    (fd : FormData) : FormData :=
  if leadOpt.isNone && decide (0 < calculatedAmt) then
    { fd with potential_amount := calculatedAmt }
  else fd

/-- The readOnly flag of the potential amount input (line 518). -/
def potentialAmountReadOnly (leadOpt : Option Lead) (calculatedAmt : Rat) : Bool :=
  leadOpt.isNone && decide (0 < calculatedAmt)

/-- Lower-cases a string character-wise, the model of toLowerCase. -/
def lowerChars (s : String) : List Char :=
  s.toList.map Char.toLower

/-- The model of hay.toLowerCase().includes(needle.toLowerCase()):
the lowered needle is a contiguous substring of the lowered haystack. -/
def containsLower (hay needle : String) : Bool :=
  decide (lowerChars needle <:+: lowerChars hay)

/-- The free-text predicate of filteredLeads (lines 71 to 73): the term
matches the name, the email, or a nonempty company (the source guards the
company disjunct with a truthiness check). -/
def leadMatchesSearch (searchTerm : String) (l : Lead) : Bool :=
  containsLower l.full_name searchTerm
    || containsLower l.email searchTerm
    || (decide (l.company ≠ "") && containsLower l.company searchTerm)

/-- The whole filter predicate of filteredLeads (lines 70 to 80): the
free-text match and the three exact matches, each select filter off when
its value is the empty string, combined conjunctively. -/
def leadMatchesFilters (searchTerm filterStatus filterLeadType filterModelType : String)
    (l : Lead) : Bool :=
  leadMatchesSearch searchTerm l
    && (decide (filterStatus = "") || decide (l.status.toStr = filterStatus))
    && (decide (filterLeadType = "") || decide (l.lead_type.toStr = filterLeadType))
    && (decide (filterModelType = "") || decide (l.model_type.toStr = filterModelType))

/-- The client-side refinement of the Dashboard (line 70). -/
def filteredLeads (searchTerm filterStatus filterLeadType filterModelType : String)
    (leads : List Lead) : List Lead :=
  leads.filter (leadMatchesFilters searchTerm filterStatus filterLeadType filterModelType)

/-- Descending lead_score, the order fetchLeads requests. -/
def scoreDesc (a b : Lead) : Bool :=
  decide (b.lead_score ≤ a.lead_score)

/-- The fetchLeads of the Dashboard (lines 29 to 55): the rows whose
user_id is the current user, ordered by lead_score descending. -/
def fetchLeads (db : List Lead) (userId : String) : List Lead :=
  (db.filter fun l => decide (l.user_id = userId)).mergeSort scoreDesc

/-- What the Dashboard displays: the fetched per-user rows refined by the
client-side filter. -/
def listLeads (db : List Lead) (userId : String)
    (searchTerm filterStatus filterLeadType filterModelType : String) : List Lead :=
  filteredLeads searchTerm filterStatus filterLeadType filterModelType
    (fetchLeads db userId)

/-- A sample stored lead owned by user userB, used to evaluate the
operations at concrete inputs. -/
def leadB0 : Lead :=
  { id := "lead1"
    user_id := "userB"
    full_name := "Bob Kumar"
    email := "bob@example.com"
    phone := ""
    company := "Acme"
    lead_type := LeadType.agent
    model_type := ModelType.purchase
    lead_score := 50
    status := LeadStatus.closed
    potential_amount := 3700
    notes := ""
    address := "12 Lake Road"
    location_url := ""
    pincode := 0
    follow_up := false
    follow_up_date := ""
    follow_up_notes := ""
    lead_sealed := false }

/-- A sample lead with the follow-up gate on and both dependent fields
populated. -/
def leadF0 : Lead :=
  { leadB0 with
    id := "lead2"
    follow_up := true
    follow_up_date := "2025-08-01"
    follow_up_notes := "call after lunch" }

/-- A form state with an out-of-range lead score. -/
def fdBad : FormData :=
  { initialFormData with lead_score := 150 }

/-- A sample storage state holding one lead and no associations. -/
def db0 : Db :=
  { leads := [leadB0], lead_products := [], lead_services := [] }

/-- The form state of the sample edit session: the form is opened on
leadF0 and the follow-up checkbox is unticked. -/
def fdW : FormData :=
  applyEvents (initFormData (some leadF0)) [FormEvent.setFollowUp false]

/-- The row the sample edit session writes back. -/
def updatedW : Lead :=
  applyFormData leadF0 fdW

deriving instance DecidableEq for Except

theorem foldl_add_getD {α : Type} (f : α → Rat) (l : List α) (a : Rat) :
    l.foldl (fun sum x => sum + f x) a = a + (l.map f).sum := by
  induction l generalizing a with
  | nil => simp
  | cons x xs ih => simp [List.foldl_cons, ih (a + f x)]; ring

/-- C1: for every catalog snapshot and every pair of selection lists, the
Amount Calculator returns exactly the sum of the prices the selected
product ids resolve to plus the sum of the prices the selected service ids
resolve to, and an id that does not resolve in the snapshot contributes
exactly 0 (its resolved price is 0, and no error is possible since the
calculator is a total function). -/
theorem calculatedAmount_eq_sum_selected_prices
    (products : List Product) (services : List Service)
    (selectedProducts selectedServices : List String) :
    calculatedAmount products services selectedProducts selectedServices
        = (selectedProducts.map (productPrice products)).sum
          + (selectedServices.map (servicePrice services)).sum
      ∧ (∀ productId, (products.find? fun p => decide (p.id = productId)) = none →
          productPrice products productId = 0)
      ∧ (∀ serviceId, (services.find? fun s => decide (s.id = serviceId)) = none →
          servicePrice services serviceId = 0) := by
  refine ⟨?_, ?_, ?_⟩
  · have hp := foldl_add_getD (productPrice products) selectedProducts 0
    have hs := foldl_add_getD (servicePrice services) selectedServices 0
    simp only [productPrice, servicePrice] at hp hs
    simp [calculatedAmount, productTotal, serviceTotal, hp, hs, productPrice, servicePrice]
  · intro productId h
    simp [productPrice, h]
  · intro serviceId h
    simp [servicePrice, h]

/-- C5: the Amount Calculator result reaches potential_amount only on
creation with a strictly positive total: for an edit the effect leaves
the form data untouched whatever the total is; a zero total also leaves
it untouched and keeps the amount input editable; and only a creation
with a positive total overwrites the amount and locks the input. -/
theorem potential_amount_autocalc_policy (lead : Lead) (calculatedAmt : Rat)
    (fd : FormData) :
    autoUpdatePotentialAmount (some lead) calculatedAmt fd = fd
      ∧ (calculatedAmt = 0 →
          autoUpdatePotentialAmount none calculatedAmt fd = fd
            ∧ potentialAmountReadOnly none calculatedAmt = false)
      ∧ (0 < calculatedAmt →
          autoUpdatePotentialAmount none calculatedAmt fd
              = { fd with potential_amount := calculatedAmt }
            ∧ potentialAmountReadOnly none calculatedAmt = true) := by
  refine ⟨?_, ?_, ?_⟩
  · simp [autoUpdatePotentialAmount]
  · intro h
    subst h
    simp [autoUpdatePotentialAmount, potentialAmountReadOnly]
  · intro h
    simp [autoUpdatePotentialAmount, potentialAmountReadOnly, h]

/-- C7: an edit of an existing lead leaves both association tables of the
storage state exactly as they were, whatever products or services are
selected and however the row update itself turns out. -/
theorem update_preserves_associations (db : Db) (userId : String) (lead : Lead)
    (fd : FormData) (selectedProducts selectedServices : List String)
    (newId : String) (productInsertOk serviceInsertOk : Bool) :
    (handleSubmit db userId (some lead) fd selectedProducts selectedServices newId
        productInsertOk serviceInsertOk).fst.lead_products = db.lead_products
      ∧ (handleSubmit db userId (some lead) fd selectedProducts selectedServices newId
          productInsertOk serviceInsertOk).fst.lead_services = db.lead_services :=
  ⟨rfl, rfl⟩

theorem productToggle_double_mem (prev : List String) (cid x : String) :
    x ∈ handleProductToggle (handleProductToggle prev cid) cid ↔ x ∈ prev := by
  by_cases h : cid ∈ prev
  · have h1 : handleProductToggle prev cid = prev.filter fun id => decide (id ≠ cid) := by
      simp [handleProductToggle, h]
    have h2 : cid ∉ prev.filter fun id => decide (id ≠ cid) := by
      simp [List.mem_filter]
    rw [h1, handleProductToggle, if_neg h2]
    by_cases hx : x = cid
    · subst hx
      simp [List.mem_append, h]
    · simp [List.mem_append, List.mem_filter, hx]
  · have h1 : handleProductToggle prev cid = prev ++ [cid] := by
      simp [handleProductToggle, h]
    have h2 : cid ∈ prev ++ [cid] := by simp
    rw [h1, handleProductToggle, if_pos h2, List.filter_append]
    have h3 : prev.filter (fun id => decide (id ≠ cid)) = prev := by
      rw [List.filter_eq_self]
      intro a ha
      simp only [decide_eq_true_eq]
      intro hac
      exact h (hac ▸ ha)
    simp only [h3]
    simp [List.mem_append]

theorem serviceToggle_eq_productToggle (prev : List String) (cid : String) :
    handleServiceToggle prev cid = handleProductToggle prev cid := rfl

/-- C9: toggling the same catalog item id twice returns a selection with
exactly the same ids as before (for products and for services alike), and
one toggle appends the id when it was absent and removes every occurrence
of it when it was present. -/
theorem toggle_involutive_on_membership (prev : List String) (cid : String) :
    (∀ x, x ∈ handleProductToggle (handleProductToggle prev cid) cid ↔ x ∈ prev)
      ∧ (∀ x, x ∈ handleServiceToggle (handleServiceToggle prev cid) cid ↔ x ∈ prev)
      ∧ (cid ∉ prev →
          handleProductToggle prev cid = prev ++ [cid]
            ∧ handleServiceToggle prev cid = prev ++ [cid])
      ∧ (cid ∈ prev →
          handleProductToggle prev cid = (prev.filter fun id => decide (id ≠ cid))
            ∧ handleServiceToggle prev cid = (prev.filter fun id => decide (id ≠ cid))) := by
  refine ⟨fun x => productToggle_double_mem prev cid x, ?_, ?_, ?_⟩
  · intro x
    rw [serviceToggle_eq_productToggle, serviceToggle_eq_productToggle]
    exact productToggle_double_mem prev cid x
  · intro h
    constructor <;> simp [handleProductToggle, handleServiceToggle, h]
  · intro h
    constructor <;> simp [handleProductToggle, handleServiceToggle, h]

theorem containsLower_empty_needle (s : String) : containsLower s "" = true := by
  apply decide_eq_true
  have h : lowerChars "" = [] := rfl
  rw [h]
  exact List.nil_infix

/-- C10: with an empty search term and all three select filters unset,
the client-side refinement is the identity: the fetched leads come back
unchanged and in the same order. -/
theorem empty_filters_identity (leads : List Lead) :
    filteredLeads "" "" "" "" leads = leads := by
  unfold filteredLeads
  rw [List.filter_eq_self]
  intro l hl
  simp [leadMatchesFilters, leadMatchesSearch, containsLower_empty_needle]

/-- C4: a lead_score outside 0 to 100 makes create fail with the
validation error and leave the table untouched, and makes update of an
existing owned lead fail the same way, also leaving the table untouched:
the lead is not persisted in either case. -/
theorem out_of_range_lead_score_rejected (db : List Lead)
    (newId leadId userId : String) (fd : FormData)
    (h : fd.lead_score < 0 ∨ 100 < fd.lead_score) :
    createLead db newId userId fd = (db, Except.error DbError.validationFailed)
      ∧ ((∃ l ∈ db, l.id = leadId ∧ l.user_id = userId) →
          updateLead db leadId userId fd = (db, Except.error DbError.validationFailed)) := by
  have hv : validLeadScore fd.lead_score = false := by
    simp only [validLeadScore, decide_eq_false_iff_not]
    omega
  constructor
  · simp [createLead, hv]
  · rintro ⟨l, hl, hid, huid⟩
    have hmem : l ∈ db.filter (leadKeyMatch leadId userId) := by
      rw [List.mem_filter]
      exact ⟨hl, by simp [leadKeyMatch, hid, huid]⟩
    have hne : (db.filter (leadKeyMatch leadId userId)).isEmpty = false :=
      List.isEmpty_eq_false.mpr (List.ne_nil_of_mem hmem)
    simp [updateLead, hne, hv]

theorem out_of_range_lead_score_rejected_witness :
    createLead [leadB0] "lead9" "userB" fdBad
        = ([leadB0], Except.error DbError.validationFailed)
      ∧ updateLead [leadB0] "lead1" "userB" fdBad
        = ([leadB0], Except.error DbError.validationFailed) :=
  And.intro
    (out_of_range_lead_score_rejected [leadB0] "lead9" "lead1" "userB" fdBad
      (Or.inr (by decide))).1
    ((out_of_range_lead_score_rejected [leadB0] "lead9" "lead1" "userB" fdBad
      (Or.inr (by decide))).2 ⟨leadB0, List.mem_cons_self _ _, rfl, rfl⟩)

/-- C3 counterexample: user userA deletes or changes the status of lead1,
which belongs to userB.  Both operations leave the table unchanged, yet
both report plain success to the caller, not the NotFound the claim
states: the source issues these two mutations without a .single() call,
so a zero-row match is not an error. -/
theorem nonowner_delete_reports_success_cex :
    (handleDelete [leadB0] "lead1" "userA").snd = Except.ok ()
      ∧ (handleDelete [leadB0] "lead1" "userA").snd ≠ Except.error DbError.notFound
      ∧ (handleDelete [leadB0] "lead1" "userA").fst = [leadB0]
      ∧ (handleStatusChange [leadB0] "lead1" "userA" LeadStatus.new).snd = Except.ok ()
      ∧ (handleStatusChange [leadB0] "lead1" "userA" LeadStatus.new).snd
          ≠ Except.error DbError.notFound
      ∧ (handleStatusChange [leadB0] "lead1" "userA" LeadStatus.new).fst = [leadB0] := by
  decide

/-- C3 amended: when every lead carrying the targeted id belongs to
ownerB and the caller userA is someone else (which also covers a wholly
unknown id), all three mutations leave the table exactly as it was;
update reports NotFound through its single-row select, while delete and
updateStatus report plain success, exactly as they do for an unknown id. -/
theorem nonowner_mutation_leaves_lead_unchanged (db : List Lead)
    (leadId userA ownerB : String) (fd : FormData) (newStatus : LeadStatus)
    (hAB : userA ≠ ownerB)
    (hown : ∀ l ∈ db, l.id = leadId → l.user_id = ownerB) :
    updateLead db leadId userA fd = (db, Except.error DbError.notFound)
      ∧ handleDelete db leadId userA = (db, Except.ok ())
      ∧ handleStatusChange db leadId userA newStatus = (db, Except.ok ()) := by
  have hkey : ∀ l ∈ db, leadKeyMatch leadId userA l = false := by
    intro l hl
    simp only [leadKeyMatch, decide_eq_false_iff_not]
    rintro ⟨hid, huid⟩
    have hb := hown l hl hid
    rw [huid] at hb
    exact hAB hb
  have hfe : db.filter (leadKeyMatch leadId userA) = [] :=
    List.filter_eq_nil_iff.mpr fun l hl => by simp [hkey l hl]
  refine ⟨?_, ?_, ?_⟩
  · simp [updateLead, hfe]
  · unfold handleDelete
    rw [Prod.mk.injEq]
    refine ⟨?_, rfl⟩
    rw [List.filter_eq_self]
    intro l hl
    simp [hkey l hl]
  · unfold handleStatusChange
    rw [Prod.mk.injEq]
    refine ⟨?_, rfl⟩
    have hmap : (db.map fun l =>
        if leadKeyMatch leadId userA l then { l with status := newStatus } else l)
          = db.map id := by
      apply List.map_congr_left
      intro l hl
      simp [hkey l hl]
    rw [hmap, List.map_id]

theorem nonowner_mutation_leaves_lead_unchanged_witness :
    updateLead [leadB0] "lead1" "userA" initialFormData
        = ([leadB0], Except.error DbError.notFound)
      ∧ handleDelete [leadB0] "lead1" "userA" = ([leadB0], Except.ok ())
      ∧ handleStatusChange [leadB0] "lead1" "userA" LeadStatus.inProgress
        = ([leadB0], Except.ok ()) :=
  nonowner_mutation_leaves_lead_unchanged [leadB0] "lead1" "userA" "userB"
    initialFormData LeadStatus.inProgress (by decide) (by decide)

/-- C6: for every owner and filter combination, the displayed list holds
exactly the owner's stored leads satisfying the conjunctive filter
predicate (case-insensitive substring search over name, email and
company, exact matches on the three select filters when set), and it is
ordered by lead_score descending. -/
theorem listLeads_filters_and_orders (db : List Lead)
    (userId searchTerm filterStatus filterLeadType filterModelType : String) :
    (∀ l : Lead,
        l ∈ listLeads db userId searchTerm filterStatus filterLeadType filterModelType
          ↔ l ∈ db ∧ l.user_id = userId
              ∧ leadMatchesFilters searchTerm filterStatus filterLeadType filterModelType l
                  = true)
      ∧ List.Sorted (fun a b : Lead => b.lead_score ≤ a.lead_score)
          (listLeads db userId searchTerm filterStatus filterLeadType filterModelType) := by
  have hperm :=
    List.mergeSort_perm (db.filter fun l => decide (l.user_id = userId)) scoreDesc
  constructor
  · intro l
    unfold listLeads filteredLeads fetchLeads
    rw [List.mem_filter, hperm.mem_iff, List.mem_filter, decide_eq_true_eq]
    tauto
  · unfold listLeads filteredLeads fetchLeads
    have htrans : ∀ a b c : Lead, scoreDesc a b = true → scoreDesc b c = true →
        scoreDesc a c = true := by
      intro a b c
      simp only [scoreDesc, decide_eq_true_eq]
      omega
    have htotal : ∀ a b : Lead, (scoreDesc a b || scoreDesc b a) = true := by
      intro a b
      simp only [scoreDesc, Bool.or_eq_true, decide_eq_true_eq]
      omega
    have hs := List.sorted_mergeSort htrans htotal
        (db.filter fun l => decide (l.user_id = userId))
    exact (List.Pairwise.sublist (List.filter_sublist _) hs).imp
      fun h => by simpa [scoreDesc] using h

theorem applyEvent_formFollowUpInv (fd : FormData) (e : FormEvent)
    (h : formFollowUpInv fd) : formFollowUpInv (applyEvent fd e) := by
  cases e <;> try exact h
  case setFollowUp b =>
    intro hb
    have hb2 : b = false := hb
    subst hb2
    exact ⟨rfl, rfl⟩
  case setFollowUpDate s =>
    show formFollowUpInv (if fd.follow_up then { fd with follow_up_date := s } else fd)
    split
    next hf =>
      intro hb
      have hb2 : fd.follow_up = false := hb
      rw [hf] at hb2
      exact Bool.noConfusion hb2
    next => exact h
  case setFollowUpNotes s =>
    show formFollowUpInv (if fd.follow_up then { fd with follow_up_notes := s } else fd)
    split
    next hf =>
      intro hb
      have hb2 : fd.follow_up = false := hb
      rw [hf] at hb2
      exact Bool.noConfusion hb2
    next => exact h

theorem applyEvents_formFollowUpInv (events : List FormEvent) (fd : FormData)
    (h : formFollowUpInv fd) : formFollowUpInv (applyEvents fd events) := by
  induction events generalizing fd with
  | nil => exact h
  | cons e es ih => exact ih (applyEvent fd e) (applyEvent_formFollowUpInv fd e h)

theorem initFormData_formFollowUpInv (leadOpt : Option Lead)
    (h : ∀ l, leadOpt = some l → leadFollowUpInv l) :
    formFollowUpInv (initFormData leadOpt) := by
  cases leadOpt with
  | none => intro hb; exact ⟨rfl, rfl⟩
  | some l => intro hb; exact h l rfl hb

/-- C2: in an edit session opened on a stored lead that satisfies the
follow-up coupling, whatever interactions happen in the form (including
arbitrary values typed into the two follow-up fields), if the row the
update returns has follow_up false then its follow_up_date and
follow_up_notes are cleared (the empty string standing for null): the
checkbox handler erases both fields whenever the gate is turned off, and
the two inputs only fire while the gate is on. -/
theorem update_follow_up_false_clears_fields (lead : Lead) (events : List FormEvent)
    (db : List Lead) (userId : String) (updated : Lead)
    (hlead : leadFollowUpInv lead)
    (hok : (updateLead db lead.id userId
        (applyEvents (initFormData (some lead)) events)).snd = Except.ok updated)
    (hfu : updated.follow_up = false) :
    updated.follow_up_date = "" ∧ updated.follow_up_notes = "" := by
  have hinv : formFollowUpInv (applyEvents (initFormData (some lead)) events) :=
    applyEvents_formFollowUpInv events _
      (initFormData_formFollowUpInv (some lead) fun l hl => by cases hl; exact hlead)
  unfold updateLead at hok
  split at hok
  · exact absurd hok (by simp)
  · split at hok
    · exact absurd hok (by simp)
    · split at hok
      next x heq =>
        have hx : x = updated := by simpa using hok
        subst hx
        have hmem : x ∈ (updatedRows db lead.id userId
            (applyEvents (initFormData (some lead)) events)).filter
              (leadKeyMatch lead.id userId) := by
          rw [heq]
          exact List.mem_cons_self _ _
        rw [List.mem_filter] at hmem
        obtain ⟨hmem2, hkeyx⟩ := hmem
        unfold updatedRows at hmem2
        obtain ⟨y, hy, hfy⟩ := List.mem_map.mp hmem2
        by_cases hk : leadKeyMatch lead.id userId y = true
        · rw [if_pos hk] at hfy
          subst hfy
          exact hinv hfu
        · rw [if_neg hk] at hfy
          subst hfy
          exact absurd hkeyx hk
      next heq => exact absurd hok (by simp)

theorem update_follow_up_false_clears_fields_witness :
    updatedW.follow_up_date = "" ∧ updatedW.follow_up_notes = "" :=
  update_follow_up_false_clears_fields leadF0 [FormEvent.setFollowUp false]
    [leadF0] "userB" updatedW (fun hb => absurd hb (by decide)) (by decide) (by decide)

theorem insertLeadProducts_leads (db : Db) (leadId : String)
    (selectedProducts : List String) :
    (insertLeadProducts db leadId selectedProducts).leads = db.leads := by
  unfold insertLeadProducts
  split <;> rfl

/-- C8: when the lead row of a creation commits but an association insert
fails (the product insert for a nonempty product selection, or the
service insert for a nonempty service selection once the product step
went through), the caller gets the repository error while the new lead
row stays in the table: nothing rolls it back. -/
theorem assoc_failure_keeps_lead_row (db : Db) (userId : String) (fd : FormData)
    (selectedProducts selectedServices : List String) (newId : String)
    (productInsertOk serviceInsertOk : Bool)
    (hscore : validLeadScore fd.lead_score = true)
    (hfail : (selectedProducts ≠ [] ∧ productInsertOk = false)
        ∨ (selectedServices ≠ [] ∧ serviceInsertOk = false
            ∧ (selectedProducts = [] ∨ productInsertOk = true))) :
    (handleSubmit db userId none fd selectedProducts selectedServices newId
        productInsertOk serviceInsertOk).snd = Except.error DbError.repositoryError
      ∧ leadOfForm newId userId fd
          ∈ (handleSubmit db userId none fd selectedProducts selectedServices newId
              productInsertOk serviceInsertOk).fst.leads := by
  have hcreate : createLead db.leads newId userId fd
      = (db.leads ++ [leadOfForm newId userId fd],
         Except.ok (leadOfForm newId userId fd)) := by
    simp [createLead, hscore]
  unfold handleSubmit
  rw [hcreate]
  dsimp only
  rcases hfail with ⟨hne, hpf⟩ | ⟨hne, hsf, hp⟩
  · have hP : (!selectedProducts.isEmpty && !productInsertOk) = true := by
      rw [hpf]
      simp [List.isEmpty_eq_false.mpr hne]
    rw [if_pos hP]
    exact ⟨rfl, by simp⟩
  · have hP : ¬ ((!selectedProducts.isEmpty && !productInsertOk) = true) := by
      rcases hp with h | h <;> simp [h]
    rw [if_neg hP]
    have hS : (!selectedServices.isEmpty && !serviceInsertOk) = true := by
      rw [hsf]
      simp [List.isEmpty_eq_false.mpr hne]
    rw [if_pos hS]
    refine ⟨rfl, ?_⟩
    rw [insertLeadProducts_leads]
    simp

theorem assoc_failure_keeps_lead_row_witness :
    (handleSubmit db0 "userB" none initialFormData ["p1"] [] "lead9" false true).snd
        = Except.error DbError.repositoryError
      ∧ leadOfForm "lead9" "userB" initialFormData
          ∈ (handleSubmit db0 "userB" none initialFormData ["p1"] [] "lead9"
              false true).fst.leads :=
  assoc_failure_keeps_lead_row db0 "userB" initialFormData ["p1"] [] "lead9" false true
    (by decide) (Or.inl ⟨by decide, rfl⟩)

end DertLeads
